import Mathlib

/-!
Verification development for the slide-generation pipeline of the `slidea`
web application (Flask + Celery).  The definitions below are a shallow
embedding of the credit/status logic of `app/tasks.py`, `app/routes.py`,
`app/models.py` and the prompt construction of `app/openai_helpers.py`.

Modelling conventions:
* SQLAlchemy rows become Lean structures; the database session's committed
  state is a `DB` value.  `db.session.get(Model, id)` is `List.find?` on the
  id; a commit of a mutated row is `replaceBy` on the row list.  Pending
  (uncommitted) session changes that get rolled back are simply never applied
  to the `DB` value that an operation returns.
* Python `int` is `Int` for user balances (`credits_remaining`), `Nat` for
  counts and credit amounts computed as `count * CREDITS_PER_SLIDE`.
* Nullable columns are `Option`; Python truthiness of a `str | None` value
  (`if slide.image_url:`) is `pyTruthy`: `none` and `some ""` are falsy.
* `random.choice(pool)` is modelled by an explicit choice index reduced
  modulo the pool's length, so every element of the pool is reachable.
* Timestamps (`last_edited_at`), logging and Celery plumbing (revoke,
  chord ids of spawned groups) carry no information the claims mention and
  are not tracked beyond the `celery_chord_id` column itself.
-/

namespace Slidea

/-- `PresentationStatus` enum of `app/models.py`. -/
inductive PresentationStatus
  | PENDING_TEXT
  | PENDING_VISUALS
  | VISUALS_COMPLETE
  | GENERATION_FAILED
deriving DecidableEq

/-- `User` row (the credit-ledger part used by the pipeline). -/
structure User where
  id : Nat
  credits_remaining : Int
deriving DecidableEq

/-- `Presentation` row (the pipeline-relevant columns). -/
structure Presentation where
  id : Nat
  user_id : Nat
  status : PresentationStatus
  celery_chord_id : Option String
deriving DecidableEq

/-- `Slide` row. -/
structure Slide where
  id : Nat
  presentation_id : Nat
  slide_number : Nat
  title : String
  text_content : Option String
  image_url : Option String
  image_gen_prompt : Option String
  applied_style_info : Option String
deriving DecidableEq

/-- The committed database state. -/
structure DB where
  users : List User
  presentations : List Presentation
  slides : List Slide
deriving DecidableEq

/-- `db.session.get(User, uid)`. -/
def DB.getUser (db : DB) (uid : Nat) : Option User :=
  db.users.find? (fun u => u.id == uid)

/-- `db.session.get(Presentation, pid)`. -/
def DB.getPresentation (db : DB) (pid : Nat) : Option Presentation :=
  db.presentations.find? (fun p => p.id == pid)

/-- `db.session.get(Slide, sid)`. -/
def DB.getSlide (db : DB) (sid : Nat) : Option Slide :=
  db.slides.find? (fun s => s.id == sid)

/-- Commit a mutated row: replace every row carrying the same key. -/
def replaceBy {α : Type} (key : α → Nat) (b : α) (l : List α) : List α :=
  l.map fun x => if key x == key b then b else x

/-- Commit a mutated user row. -/
def DB.setUser (db : DB) (u : User) : DB :=
  { db with users := replaceBy User.id u db.users }

/-- Commit a mutated presentation row. -/
def DB.setPresentation (db : DB) (p : Presentation) : DB :=
  { db with presentations := replaceBy Presentation.id p db.presentations }

/-- Commit a mutated slide row. -/
def DB.setSlide (db : DB) (s : Slide) : DB :=
  { db with slides := replaceBy Slide.id s db.slides }

/-- Python truthiness of a `str | None` value. -/
def pyTruthy : Option String → Bool
  | none => false
  | some s => !(s == "")

/-- `Slide.image_url.isnot(None)` filter of the finalizer's double-check
(SQL non-null, not Python truthiness). -/
def DB.actualImages (db : DB) (pid : Nat) : Nat :=
  (db.slides.filter (fun s => s.presentation_id == pid && s.image_url.isSome)).length

/-- `finalize_presentation_status_task` of `app/tasks.py` (lines 157-262).
`results` is the chord's outcome list (`None` entries allowed), the other
arguments mirror the task signature.  The success criterion, refund and
chord-clearing follow the source exactly; the exception fallback (lines
264-289) is unreachable in the pure model. -/
def finalize_presentation_status_task (db : DB) (results : List (Option Bool))
    (presentation_id user_id : Nat) (_expected_slide_count : Nat)
    (credits_deducted : Nat) : DB :=
  match db.getPresentation presentation_id with
  | none => db
  | some presentation =>
    match db.getUser user_id with
    | none =>
      if presentation.status = PresentationStatus.PENDING_VISUALS then
        db.setPresentation { presentation with
          status := PresentationStatus.GENERATION_FAILED, celery_chord_id := none }
      else db
    | some user =>
      if presentation.status = PresentationStatus.GENERATION_FAILED then
        -- already failed (e.g. by cancellation): refund check, then clear chord id
        let db1 :=
          if credits_deducted > 0 then
            db.setUser { user with
              credits_remaining := user.credits_remaining + credits_deducted }
          else db
        if presentation.celery_chord_id.isSome then
          db1.setPresentation { presentation with celery_chord_id := none }
        else db1
      else
        let valid_results := results.filter (fun r => r.isSome)
        let successful_slides := (valid_results.filter (fun r => r == some true)).length
        let actual_images_generated := db.actualImages presentation_id
        let generation_successful :=
          0 < successful_slides ∧ successful_slides ≤ actual_images_generated
        let db1 :=
          if generation_successful then db
          else if credits_deducted > 0 then
            db.setUser { user with
              credits_remaining := user.credits_remaining + credits_deducted }
          else db
        db1.setPresentation { presentation with
          status := if generation_successful then PresentationStatus.VISUALS_COMPLETE
                    else PresentationStatus.GENERATION_FAILED,
          celery_chord_id := none }

/-- Outcome of the cancel route, distinguishing its early returns. -/
inductive CancelOutcome
  | forbidden
  | notGenerating
  | noActiveTask
  | cancelled
deriving DecidableEq

/-- `cancel_presentation` of `app/routes.py` (lines 585-634): only acts on an
owned presentation in PENDING_VISUALS; with no recorded chord id it just
forces GENERATION_FAILED; otherwise it revokes the chord (external effect),
sets GENERATION_FAILED and refunds `slides.count() * CREDITS_PER_SLIDE`
(the rate is the config value at cancellation time).  The chord id column is
not cleared and slide rows are not touched. -/
def cancel_presentation (db : DB) (presentation_id user_id : Nat)
    (credits_per_slide : Nat) : DB × CancelOutcome :=
  match db.getPresentation presentation_id with
  | none => (db, CancelOutcome.forbidden)
  | some presentation =>
    if presentation.user_id ≠ user_id then (db, CancelOutcome.forbidden)
    else if presentation.status ≠ PresentationStatus.PENDING_VISUALS then
      (db, CancelOutcome.notGenerating)
    else if presentation.celery_chord_id.isNone then
      (db.setPresentation { presentation with status := PresentationStatus.GENERATION_FAILED },
        CancelOutcome.noActiveTask)
    else
      let db1 := db.setPresentation
        { presentation with status := PresentationStatus.GENERATION_FAILED }
      let num_slides_intended :=
        (db.slides.filter (fun s => s.presentation_id == presentation_id)).length
      let credits_to_refund := num_slides_intended * credits_per_slide
      let db2 :=
        match db1.getUser user_id with
        | some user =>
          if credits_to_refund > 0 then
            db1.setUser { user with
              credits_remaining := user.credits_remaining + credits_to_refund }
          else db1
        | none => db1
      (db2, CancelOutcome.cancelled)

/-- `max(0, balance - amount)`: the debit pattern of `create_presentation`
(routes.py line 240) and `regenerate_slide_image_api` (routes.py line 425). -/
def deduct_credits (balance : Int) (amount : Int) : Int := max 0 (balance - amount)

/-- Outcome of a batch submission. -/
inductive CreateOutcome
  | insufficientCredits
  | submitted (spawned_tasks : Nat)
deriving DecidableEq

/-- Credit skeleton of the POST branch of `create_presentation` (routes.py
lines 187-315): `required_credits = slide_count * CREDITS_PER_SLIDE`; an
insufficient balance redirects to pricing before the debit and before any
Celery job unit is spawned; otherwise the balance is debited with
`max(0, ...)` and one `generate_single_slide_visual_task` per slide is
spawned.  Returns (outcome, new balance, number of job units spawned). -/
def create_presentation_submit (credits_remaining : Int) (desired_slide_count : Nat)
    (credits_per_slide : Nat) : CreateOutcome × Int × Nat :=
  let required_credits : Int := ((desired_slide_count * credits_per_slide : Nat) : Int)
  if credits_remaining < required_credits then
    (CreateOutcome.insufficientCredits, credits_remaining, 0)
  else
    (CreateOutcome.submitted desired_slide_count,
      deduct_credits credits_remaining required_credits, desired_slide_count)

/-- Python value of `slide_content` (`str | list | None`; `pyOther` stands for
any other JSON value, e.g. a dict or a number). -/
inductive PyContent
  | pyList (items : List String)
  | pyStr (s : String)
  | pyNone
  | pyOther
deriving DecidableEq

/-- Python string slicing `s[:n]` (by code points). -/
def pySlice (s : String) (n : Nat) : String := String.mk (s.data.take n)

def isMatchHere : List Char → List Char → Bool
  | [], _ => true
  | _ :: _, [] => false
  | p :: ps, c :: cs => p == c && isMatchHere ps cs

def containsSub (pat : List Char) : List Char → Bool
  | [] => pat.isEmpty
  | c :: rest => isMatchHere pat (c :: rest) || containsSub pat rest

/-- Python `pat in s` substring test. -/
def strContains (s pat : String) : Bool := containsSub pat.data s.data

/-- Python `a or b` on strings (the empty string is falsy). -/
def pyOr (a b : String) : String := if a == "" then b else a

/-- A `str | None` value with `None` collapsed to the falsy empty string. -/
def optStr : Option String → String := fun o => o.getD ""

/-- Closing-slide keyword list of `build_image_prompt`
(openai_helpers.py line 427). -/
def closing_keywords : List String :=
  ["thank you", "q&a", "conclusion", "summary", "next steps", "final thoughts"]

/-- `text_area_description` (openai_helpers.py line 465). -/
def text_area_description : String :=
  "a clearly defined area with high contrast against its background (e.g., a solid panel, shape, or clean zone of the visual)"

/-- `layouts_low` (openai_helpers.py line 475). -/
def layouts_low : List String :=
  ["Standard: Visual Left 60-70%, title Top-Right, body text Right 30-40% within " ++ text_area_description ++ ".",
   "Standard Reversed: Visual Right 60-70%, title Top-Left, body text Left 30-40% within " ++ text_area_description ++ "."]

/-- `layouts_medium = layouts_low + [...]` (openai_helpers.py line 476). -/
def layouts_medium : List String := layouts_low ++
  ["Top Visual: Visual as Background or Top 60-70%, title Top, body text Bottom 30-40% within " ++ text_area_description ++ ".",
   "Centered Text: Visual as Background, title Top-Center, body text Centered within " ++ text_area_description ++ ".",
   "Split Vertical: Visual fills top half, text fills bottom half within " ++ text_area_description ++ "."]

/-- `layouts_high = layouts_medium + [...]` (openai_helpers.py line 477). -/
def layouts_high : List String := layouts_medium ++
  ["Dynamic Integrated: Arrange visual, title, and body text creatively (e.g., text integrated near relevant visual parts, overlapping clean areas). Ensure balance, hierarchy, place text within " ++ text_area_description ++ ".",
   "Creative Split Screen: Visual on one side (vertical or horizontal split), text artfully arranged on the other within " ++ text_area_description ++ ". Avoid simple 50/50.",
   "Full Background Visual: Compelling full-bleed background image, title/text strategically placed in areas of lower visual complexity within " ++ text_area_description ++ ". Use overlays if needed for contrast.",
   "Minimalist Focus: Strong central visual, text placed minimally but impactfully (e.g., corner, edge) within " ++ text_area_description ++ ".",
   "Asymmetric Balance: Visual dominates one area (e.g., top-left), text balances in another (e.g., bottom-right) within " ++ text_area_description ++ "."]

/-- `random.choice(pool)` with the uniform draw made explicit as an index
reduced modulo the pool size (every index hits one candidate, every candidate
is hit by some index). -/
def pyRandomChoice (pool : List String) (idx : Nat) : String :=
  pool.getD (idx % pool.length) ""

/-- The creativity-tier layout selection for content slides
(openai_helpers.py lines 478-480); a score outside 1..10 keeps the initial
empty `layout_description`. -/
def chooseContentLayout (creativity_score : Int) (idx : Nat) : String :=
  if 1 ≤ creativity_score ∧ creativity_score ≤ 3 then pyRandomChoice layouts_low idx
  else if 4 ≤ creativity_score ∧ creativity_score ≤ 7 then pyRandomChoice layouts_medium idx
  else if 8 ≤ creativity_score ∧ creativity_score ≤ 10 then pyRandomChoice layouts_high idx
  else ""

/-- Slide classification of `build_image_prompt`. -/
inductive SlideType
  | titleSlide
  | closingSlide
  | contentSlide
deriving DecidableEq

/-- Slide classification (openai_helpers.py lines 424-430): first slide is a
Title slide; the last slide whose lowercased title holds a closing keyword is
a Closing slide; everything else is Content. -/
def slideTypeOf (slide_title : String) (slide_number total_slides : Nat) : SlideType :=
  let title_lower := slide_title.toLower
  let is_likely_closing := closing_keywords.any (fun k => strContains title_lower k)
  if slide_number == 1 then SlideType.titleSlide
  else if slide_number == total_slides && is_likely_closing then SlideType.closingSlide
  else SlideType.contentSlide

/-- `presenter_name.strip() if presenter_name else None`
(openai_helpers.py line 433). -/
def presenter_name_clean (presenter_name : Option String) : Option String :=
  match presenter_name with
  | none => none
  | some s => if s == "" then none else some s.trim

/-- `"\n".join(f"- {item}" for item in slide_content)`. -/
def bulletLines (items : List String) : String :=
  String.intercalate "\n" (items.map (fun item => "- " ++ item))

/-- The untruncated instruction text assembled by `build_image_prompt`
(openai_helpers.py lines 424-504).  The quadruple `fields` is
(body_content_text, content_type_description, visual_content_hint,
has_body_content); `layout_choice` is the explicit random draw. -/
def image_prompt_text (slide_title : String) (slide_content : PyContent)
    (style_description : String) (text_style : String)
    (slide_number total_slides : Nat) (creativity_score : Int)
    (presentation_topic : Option String) (font_choice : String)
    (presenter_name : Option String) (layout_choice : Nat) : String :=
  let slide_type := slideTypeOf slide_title slide_number total_slides
  let pclean := presenter_name_clean presenter_name
  let fields : String × String × String × Bool :=
    match slide_type with
    | SlideType.titleSlide =>
      let hint := pyOr (optStr presentation_topic) (pyOr slide_title "main theme")
      let body := if pyTruthy pclean then "By: " ++ optStr pclean else ""
      (body, "Title Slide", hint, !(body == ""))
    | SlideType.closingSlide =>
      let hint := "simple, clean, abstract graphic or background"
      match slide_content with
      | PyContent.pyList (i :: rest) => (bulletLines (i :: rest), "Closing Content", hint, true)
      | PyContent.pyStr s =>
        if !(s.trim == "") then (s, "Closing Content", hint, true)
        else ("", "Closing Content", hint, false)
      | _ => ("", "Closing Content", hint, false)
    | SlideType.contentSlide =>
      let hint0 := "core concept of '" ++ slide_title ++ "'"
      match slide_content with
      | PyContent.pyList (i :: rest) =>
        (bulletLines (i :: rest), "bullet points", hint0 ++ " - " ++ i, true)
      | PyContent.pyStr s =>
        if !(s.trim == "") then
          (s, "paragraph", hint0 ++ " - " ++ pySlice s 80 ++ "...", true)
        else ("", "content area (layout suitable for " ++ text_style ++ ")",
          "visual representing '" ++ slide_title ++ "' (no body text provided)", false)
      | _ => ("", "content area (layout suitable for " ++ text_style ++ ")",
          "visual representing '" ++ slide_title ++ "' (no body text provided)", false)
  let body_content_text := fields.1
  let content_type_description := fields.2.1
  let visual_content_hint := fields.2.2.1
  let has_body_content := fields.2.2.2
  let layout_description :=
    match slide_type with
    | SlideType.titleSlide =>
      "Place visual 'Main focus or background, visually appealing', title at 'Prominently Top or Center'."
        ++ (if pyTruthy pclean then " Place presenter name 'Subtly below title, smaller font'." else "")
    | SlideType.closingSlide =>
      "Place visual 'Subtle background or abstract element, minimalist', title at 'Top or Center', body text (if any) in 'Center or Bottom' within " ++ text_area_description ++ "."
    | SlideType.contentSlide =>
      let base := chooseContentLayout creativity_score layout_choice
      let base := if slide_number > 2 then base ++ " Try a different composition than the previous slide." else base
      if !has_body_content then
        ((base.replace "body text" "title").replace ("within " ++ text_area_description) "")
          ++ " Ensure ample space for the visual."
      else base
  let augmented_style := style_description ++
    (if 1 ≤ creativity_score ∧ creativity_score ≤ 3 then
       " Standard, clear, conventional slide design."
     else if 4 ≤ creativity_score ∧ creativity_score ≤ 7 then
       " Professional, well-composed visual. Balanced design."
     else if 8 ≤ creativity_score ∧ creativity_score ≤ 10 then
       " Highly creative, artistic interpretation. Apple Keynote aesthetic, cinematic lighting, dynamic composition, unique visual metaphors. High-end design."
     else "")
  let step3 :=
    if has_body_content then
      match slide_type with
      | SlideType.titleSlide =>
        "3. **Presenter Name:** Include the exact text: \"" ++ body_content_text ++ "\". Use a smaller, secondary font size.\n"
      | _ =>
        let text_length_hint :=
          if body_content_text.length < 150 then "short"
          else if body_content_text.length < 300 then "medium" else "long"
        "3. **Body Content:** Include " ++ content_type_description ++ " (" ++ text_length_hint ++ " length):\n```\n" ++ body_content_text ++ "\n```\n"
    else
      "3. **Body Content:** None required for this slide. Design the layout considering only the title and visual.\n"
  let pencil :=
    if strContains style_description.toLower "pencil sketch style" ||
        strContains style_description.toLower "pencil & paper" then
      "   * SPECIAL INSTRUCTION FOR PENCIL STYLE: Make the text (title, body content) appear as if written neatly with a pencil or a simple handwriting font. It should look hand-drawn but legible.\n"
    else ""
  "Create a complete presentation slide visual including all specified text elements, designed for a 3:2 aspect ratio (1536x1024 pixels).\n\n**Instructions:**\n1. **Visual:** Generate visual: '" ++ visual_content_hint ++ "'.\n2. **Title:** Include title: \"" ++ slide_title ++ "\".\n"
    ++ step3
    ++ "4. **Overall Style:** Adhere strictly to: '" ++ augmented_style ++ "'.\n"
    ++ "5. **Font & Text Size:** Use font '" ++ font_choice ++ "' consistently. Ensure EXCELLENT readability. CRITICAL: Adjust text size appropriately (e.g., larger title, smaller body/name) so ALL content fits comfortably well within its designated area based on the layout (" ++ layout_description ++ "). AVOID text overflow, cutoff, or text being excessively large or small for its area. Add reasonable padding around text blocks - text MUST NOT touch the edges of its container or the slide borders.\n"
    ++ pencil
    ++ "6. **Layout & Readability:** Arrange elements harmoniously: '" ++ layout_description ++ "'. CRITICAL: Place ALL text (title, body, name) fully inside dedicated areas with HIGH CONTRAST against the background.\n"
    ++ "7. **Safe Zone & Padding:** ABSOLUTELY CRITICAL - Ensure ALL text and vital parts of the visual are placed well within the central 90-95% of the 3:2 image canvas. DO NOT place text or essential visual elements touching or extremely close to the absolute edges (top, bottom, left, right). Leave generous padding around text and away from borders.\n"
    ++ "8. **Colors:** Use colors consistent with style description.\n"
    ++ (if slide_number > 1 then "9. **Variety:** Use a different visual composition/layout than the previous slide, if appropriate for the content and creativity level.\n" else "")

/-- `build_image_prompt` (openai_helpers.py lines 407-514): the assembled
text is stripped and hard-cut at `max_len = 3950` characters. -/
def build_image_prompt (slide_title : String) (slide_content : PyContent)
    (style_description : String) (text_style : String)
    (slide_number total_slides : Nat) (creativity_score : Int)
    (presentation_topic : Option String) (font_choice : String)
    (presenter_name : Option String) (layout_choice : Nat) : String :=
  pySlice (image_prompt_text slide_title slide_content style_description text_style
    slide_number total_slides creativity_score presentation_topic font_choice
    presenter_name layout_choice).trim 3950

/-- Observable outcome of one `generate_slide_image` call: a saved relative
path, a `None` return (helper failed internally), or a raised provider/IO
error. -/
inductive GenOutcome
  | ok (relative_image_path : String)
  | noImage
  | raised
deriving DecidableEq

/-- Result of one run of the job unit.  `returned = none` models the task
raising its retry signal (`self.retry` in the `except` handlers) instead of
returning; `gen_calls` counts calls to `generate_slide_image`; `retried`
records whether a retry was requested on this run. -/
structure TaskRun where
  returned : Option Bool
  db : DB
  gen_calls : Nat
  retried : Bool
deriving DecidableEq

/-- The `json.loads` step on `slide.text_content` (tasks.py lines 64-72):
parsing is attempted only on a truthy text whose stripped form starts with a
square bracket or a curly brace; a parse failure keeps the raw string.
`jsonParse` stands for Python's `json.loads` (`none` = `JSONDecodeError`). -/
def parsedContent (jsonParse : String → Option PyContent) (tc : Option String) : PyContent :=
  match tc with
  | none => PyContent.pyNone
  | some s =>
    if !(s == "") && (s.trim.startsWith "[" || s.trim.startsWith "\x7b") then
      match jsonParse s with
      | some c => c
      | none => PyContent.pyStr s
    else PyContent.pyStr s

/-- `generate_single_slide_visual_task` of `app/tasks.py` (lines 22-153), one
attempt.  Checks run in source order: slide lookup, idempotent short-circuit
on a truthy `slide.image_url`, presentation lookup, terminal-failed skip;
then the prompt is built and the generator called.  On success the slide's
image reference, prompt and applied style are committed; a `None` helper
return yields `False`; a raised retryable error triggers `self.retry`
(modelled as `returned = none`, `retried = true`, no state change after the
rollback). -/
def generate_single_slide_visual_task (db : DB) (slide_id : Nat) (_user_id : Nat)
    (presentation_topic presenter_name : Option String) (total_slides : Nat)
    (text_style_for_image : String) (creativity_score : Int) (font_choice : String)
    (presentation_style_prompt : String)
    (jsonParse : String → Option PyContent) (layout_choice : Nat)
    (gen : GenOutcome) : TaskRun :=
  match db.getSlide slide_id with
  | none => ⟨some false, db, 0, false⟩
  | some slide =>
    if pyTruthy slide.image_url then ⟨some true, db, 0, false⟩
    else
      match db.getPresentation slide.presentation_id with
      | none => ⟨some false, db, 0, false⟩
      | some presentation =>
        if presentation.status = PresentationStatus.GENERATION_FAILED then
          ⟨some false, db, 0, false⟩
        else
          let style_description_to_use := presentation_style_prompt
          let slide_content_parsed := parsedContent jsonParse slide.text_content
          let image_gen_prompt_text := build_image_prompt slide.title slide_content_parsed
            style_description_to_use text_style_for_image slide.slide_number total_slides
            creativity_score presentation_topic font_choice presenter_name layout_choice
          match gen with
          | GenOutcome.ok relative_image_path =>
            let slide' := { slide with
              image_url := some relative_image_path,
              image_gen_prompt := some image_gen_prompt_text,
              applied_style_info := some style_description_to_use }
            ⟨some true, db.setSlide slide', 1, false⟩
          | GenOutcome.noImage => ⟨some false, db, 1, false⟩
          | GenOutcome.raised => ⟨none, db, 1, true⟩

/-- Outcome of the single-slide regenerate endpoint, by HTTP result. -/
inductive RegenOutcome
  | errorNotFound
  | errorForbidden
  | errorInsufficientCredits
  | errorMissingData
  | regenerated (new_image : String)
  | errorGenFailed
  | errorException
deriving DecidableEq

/-- `regenerate_slide_image_api` of `app/routes.py` (lines 400-480).  All
mutations (the `max(0, ...)` credit deduction, the title/text edits, the
image fields) stay session-pending until the single `db.session.commit()` in
the success branch; both failure branches call `db.session.rollback()`, so
the committed state they return is the pre-call state.  `request_data` is the
request JSON's (title, text_content); `new_text_stored` is the normalized
text the route stores (its bullet-list JSON round-trip is not modelled
further — it is rolled back in the branches the claims inspect);
`style_used`/`prompt_used` stand for `style_description_to_use` and the built
prompt of the success branch. -/
def regenerate_slide_image_api (db : DB) (slide_id user_id : Nat) (credits_needed : Nat)
    (request_data : Option (String × String)) (new_text_stored : String)
    (style_used prompt_used : String) (gen : GenOutcome) : DB × RegenOutcome :=
  match db.getSlide slide_id with
  | none => (db, RegenOutcome.errorNotFound)
  | some slide =>
    match db.getPresentation slide.presentation_id with
    | none => (db, RegenOutcome.errorForbidden)
    | some presentation =>
      if presentation.user_id ≠ user_id then (db, RegenOutcome.errorForbidden)
      else
        match db.getUser user_id with
        | none => (db, RegenOutcome.errorNotFound)
        | some user =>
          if user.credits_remaining < (credits_needed : Int) then
            (db, RegenOutcome.errorInsufficientCredits)
          else
            match request_data with
            | none => (db, RegenOutcome.errorMissingData)
            | some (request_title, _request_text_content) =>
              let user' := { user with
                credits_remaining := deduct_credits user.credits_remaining credits_needed }
              let slide' := { slide with
                title := request_title, text_content := some new_text_stored }
              match gen with
              | GenOutcome.ok relative_image_path =>
                let slide2 := { slide' with
                  image_url := some relative_image_path,
                  image_gen_prompt := some prompt_used,
                  applied_style_info := some style_used }
                ((db.setUser user').setSlide slide2,
                  RegenOutcome.regenerated relative_image_path)
              | GenOutcome.noImage => (db, RegenOutcome.errorGenFailed)
              | GenOutcome.raised => (db, RegenOutcome.errorException)

theorem find?_pred_of_some {α : Type} (p : α → Bool) :
    ∀ {l : List α} {a : α}, l.find? p = some a → p a = true := by
  intro l
  induction l with
  | nil => intro a h; simp [List.find?] at h
  | cons x t ih =>
    intro a h
    cases hx : p x with
    | true =>
      have hxa : x = a := by simpa [List.find?, hx] using h
      exact hxa ▸ hx
    | false =>
      exact ih (by simpa [List.find?, hx] using h)

theorem find?_replaceBy {α : Type} (key : α → Nat) (b : α) :
    ∀ {l : List α} {a : α} {k : Nat},
      l.find? (fun x => key x == k) = some a → key b = key a →
      (replaceBy key b l).find? (fun x => key x == k) = some b := by
  intro l
  induction l with
  | nil => intro a k h _; simp [List.find?] at h
  | cons x t ih =>
    intro a k h hk
    have hak : (key a == k) = true := find?_pred_of_some (fun x => key x == k) h
    have hak' : key a = k := by simpa using hak
    by_cases hx : (key x == k) = true
    · have hxa : x = a := by
        simp only [List.find?, hx] at h
        exact Option.some.inj h
      have hxb : (key x == key b) = true := by
        subst hxa; simp [hk]
      have hbk : (key b == k) = true := by simp [hk, hak']
      simp [replaceBy, List.find?, hxb, hbk]
    · have hxk : key x ≠ k := by simpa using hx
      have hxb : (key x == key b) = false := by
        simp [hk, hak']; exact hxk
      have ht : t.find? (fun y => key y == k) = some a := by
        simpa [List.find?, hx] using h
      have := ih ht hk
      simpa [replaceBy, List.find?, hxb, hx] using this

theorem count_true_filter_isSome (results : List (Option Bool)) :
    (((results.filter (fun r => r.isSome)).filter (fun r => r == some true)).length)
      = (results.filter (fun r => r == some true)).length := by
  have hpt : ∀ r : Option Bool, ((r == some true) && r.isSome) = (r == some true) := by
    intro r
    cases r with
    | none => rfl
    | some b => simp
  simp [List.filter_filter, hpt]

theorem getPresentation_set {db : DB} {p : Presentation} {pid : Nat} (q : Presentation)
    (h : db.getPresentation pid = some p) (hid : q.id = p.id) :
    (db.setPresentation q).getPresentation pid = some q :=
  find?_replaceBy Presentation.id q h hid

theorem getUser_set {db : DB} {u : User} {uid : Nat} (v : User)
    (h : db.getUser uid = some u) (hid : v.id = u.id) :
    (db.setUser v).getUser uid = some v :=
  find?_replaceBy User.id v h hid

theorem finalize_eq_of_not_failed (db : DB) (results : List (Option Bool))
    (pid uid cnt credits : Nat) {p : Presentation} {u : User}
    (hp : db.getPresentation pid = some p)
    (hps : ¬ p.status = PresentationStatus.GENERATION_FAILED)
    (hu : db.getUser uid = some u) :
    finalize_presentation_status_task db results pid uid cnt credits =
      ((if 0 < (results.filter (fun r => r == some true)).length ∧
           (results.filter (fun r => r == some true)).length ≤ db.actualImages pid
        then db
        else if credits > 0 then
          db.setUser { u with credits_remaining := u.credits_remaining + credits }
        else db).setPresentation
        { p with
          status := if 0 < (results.filter (fun r => r == some true)).length ∧
                       (results.filter (fun r => r == some true)).length ≤ db.actualImages pid
                    then PresentationStatus.VISUALS_COMPLETE
                    else PresentationStatus.GENERATION_FAILED,
          celery_chord_id := none }) := by
  unfold finalize_presentation_status_task
  rw [hp, hu]
  simp only [if_neg hps, count_true_filter_isSome]

theorem getPresentation_setUser (db : DB) (u : User) (pid : Nat) :
    (db.setUser u).getPresentation pid = db.getPresentation pid := rfl

theorem getUser_setPresentation (db : DB) (p : Presentation) (uid : Nat) :
    (db.setPresentation p).getUser uid = db.getUser uid := rfl

theorem slides_setUser (db : DB) (u : User) : (db.setUser u).slides = db.slides := rfl

theorem slides_setPresentation (db : DB) (p : Presentation) :
    (db.setPresentation p).slides = db.slides := rfl

/-- C1: for every finalize call where the presentation exists, is not already
GENERATION_FAILED, and the user exists: with `successCount` the number of
`true` entries of the outcomes list and `actualImages` the number of slides of
the presentation holding a non-null image reference, the final status is
VISUALS_COMPLETE iff `successCount > 0 ∧ actualImages ≥ successCount`, and
otherwise the status becomes GENERATION_FAILED and `credits_deducted` is added
back to the user's balance. -/
theorem finalize_status_and_refund (db : DB) (results : List (Option Bool))
    (pid uid cnt credits : Nat) {p : Presentation} {u : User}
    (hp : db.getPresentation pid = some p)
    (hps : ¬ p.status = PresentationStatus.GENERATION_FAILED)
    (hu : db.getUser uid = some u) :
    (((finalize_presentation_status_task db results pid uid cnt credits).getPresentation
          pid).map Presentation.status = some PresentationStatus.VISUALS_COMPLETE
      ↔ (0 < (results.filter (fun r => r == some true)).length ∧
          (results.filter (fun r => r == some true)).length ≤ db.actualImages pid)) ∧
    (¬ (0 < (results.filter (fun r => r == some true)).length ∧
          (results.filter (fun r => r == some true)).length ≤ db.actualImages pid) →
      ((finalize_presentation_status_task db results pid uid cnt credits).getPresentation
          pid).map Presentation.status = some PresentationStatus.GENERATION_FAILED ∧
      ((finalize_presentation_status_task db results pid uid cnt credits).getUser uid).map
          User.credits_remaining = some (u.credits_remaining + credits)) := by
  rw [finalize_eq_of_not_failed db results pid uid cnt credits hp hps hu]
  by_cases hc : 0 < (results.filter (fun r => r == some true)).length ∧
      (results.filter (fun r => r == some true)).length ≤ db.actualImages pid
  · rw [if_pos hc, if_pos hc]
    have hset := getPresentation_set ({ p with status := PresentationStatus.VISUALS_COMPLETE, celery_chord_id := none }) hp rfl
    rw [hset]
    simp [hc]
  · rw [if_neg hc, if_neg hc]
    have hp1 : (if credits > 0 then
        db.setUser { u with credits_remaining := u.credits_remaining + credits }
        else db).getPresentation pid = some p := by
      by_cases hcr : credits > 0
      · simpa [if_pos hcr, getPresentation_setUser] using hp
      · simpa [if_neg hcr] using hp
    have hset := getPresentation_set ({ p with status := PresentationStatus.GENERATION_FAILED, celery_chord_id := none }) hp1 rfl
    rw [hset]
    refine ⟨by simp [hc], fun _ => ⟨by simp, ?_⟩⟩
    rw [getUser_setPresentation]
    by_cases hcr : credits > 0
    · have huset := getUser_set ({ u with credits_remaining := u.credits_remaining + credits }) hu rfl
      rw [if_pos hcr, huset]
      simp
    · have hz : credits = 0 := Nat.eq_zero_of_not_pos hcr
      rw [if_neg hcr, hu]
      simp [hz]

/-- C1 witness: the spec's own aggregation example, outcomes
`[true, true, false]` with two persisted images gives VISUALS_COMPLETE. -/
theorem finalize_status_and_refund_witness :
    (let db : DB := ⟨[⟨1, 5⟩], [⟨1, 1, PresentationStatus.PENDING_VISUALS, some "t"⟩],
      [⟨1, 1, 1, "a", none, some "uploads/1/slide_1_x.png", none, none⟩,
       ⟨2, 1, 2, "b", none, some "uploads/1/slide_2_x.png", none, none⟩,
       ⟨3, 1, 3, "c", none, none, none, none⟩]⟩
     ((finalize_presentation_status_task db [some true, some true, some false] 1 1 3 75
        ).getPresentation 1).map Presentation.status
       = some PresentationStatus.VISUALS_COMPLETE
      ↔ (0 < ([some true, some true, some false].filter (fun r => r == some true)).length ∧
          ([some true, some true, some false].filter (fun r => r == some true)).length ≤
            db.actualImages 1)) := by
  exact (finalize_status_and_refund _ [some true, some true, some false] 1 1 3 75
    (by rfl) (by simp) (by rfl)).1

/-- C2 (bug exhibit): the finalizer refunds again on a second delivery.  With a
two-slide batch that fully failed and `credits_deducted = 10`, the first call
refunds 10 and marks the presentation GENERATION_FAILED; the second call takes
the already-failed branch, which refunds unconditionally (no batch-token
guard), leaving the balance at 20 — two refunds, not one. -/
theorem finalize_double_refund_on_redelivery :
    (let db0 : DB := ⟨[⟨1, 0⟩], [⟨1, 1, PresentationStatus.PENDING_VISUALS, some "t"⟩],
      [⟨1, 1, 1, "a", none, none, none, none⟩, ⟨2, 1, 2, "b", none, none, none, none⟩]⟩
     let db1 := finalize_presentation_status_task db0 [some false, some false] 1 1 2 10
     let db2 := finalize_presentation_status_task db1 [some false, some false] 1 1 2 10
     (db0.getUser 1).map User.credits_remaining = some 0 ∧
     (db1.getPresentation 1).map Presentation.status
        = some PresentationStatus.GENERATION_FAILED ∧
     (db1.getUser 1).map User.credits_remaining = some 10 ∧
     (db2.getUser 1).map User.credits_remaining = some 20) :=
  ⟨rfl, rfl, rfl, rfl⟩

/-- C3: cancelling an owned presentation in PENDING_VISUALS that has a
recorded batch token sets its status to GENERATION_FAILED, leaves every slide
row (hence every already-written image reference) untouched, and refunds
exactly (number of slides currently attached) x (credits-per-slide rate at
cancellation time) — the originally debited amount plays no part. -/
theorem cancel_refunds_slide_count_times_rate (db : DB) (pid uid rate : Nat)
    {p : Presentation} {u : User}
    (hp : db.getPresentation pid = some p)
    (howner : p.user_id = uid)
    (hstat : p.status = PresentationStatus.PENDING_VISUALS)
    (hchord : p.celery_chord_id.isSome)
    (hu : db.getUser uid = some u) :
    (cancel_presentation db pid uid rate).2 = CancelOutcome.cancelled ∧
    ((cancel_presentation db pid uid rate).1.getPresentation pid).map Presentation.status
      = some PresentationStatus.GENERATION_FAILED ∧
    (cancel_presentation db pid uid rate).1.slides = db.slides ∧
    ((cancel_presentation db pid uid rate).1.getUser uid).map User.credits_remaining
      = some (u.credits_remaining +
          (((db.slides.filter (fun s => s.presentation_id == pid)).length * rate : Nat) : Int)) := by
  obtain ⟨tok, htok⟩ := Option.isSome_iff_exists.mp hchord
  have hne : ¬ p.user_id ≠ uid := fun h => h howner
  have hns : ¬ p.status ≠ PresentationStatus.PENDING_VISUALS := fun h => h hstat
  have hkey : cancel_presentation db pid uid rate =
      (let db1 := db.setPresentation { p with status := PresentationStatus.GENERATION_FAILED }
       let n := (db.slides.filter (fun s => s.presentation_id == pid)).length
       let db2 :=
         match db1.getUser uid with
         | some user =>
           if n * rate > 0 then
             db1.setUser { user with
               credits_remaining := user.credits_remaining + ((n * rate : Nat) : Int) }
           else db1
         | none => db1
       (db2, CancelOutcome.cancelled)) := by
    unfold cancel_presentation
    rw [hp]
    simp only [if_neg hne, if_neg hns, htok, Option.isNone_some, Bool.false_eq_true, if_false]
  rw [hkey]
  have hu1 : (db.setPresentation { p with status := PresentationStatus.GENERATION_FAILED }).getUser uid = some u := hu
  simp only [hu1]
  have hsetp := getPresentation_set ({ p with status := PresentationStatus.GENERATION_FAILED }) hp rfl
  by_cases hcr : (db.slides.filter (fun s => s.presentation_id == pid)).length * rate > 0
  · simp only [if_pos hcr]
    have huset := getUser_set ({ u with credits_remaining := u.credits_remaining + (((db.slides.filter (fun s => s.presentation_id == pid)).length * rate : Nat) : Int) }) hu1 rfl
    refine ⟨trivial, ?_, rfl, ?_⟩
    · rw [getPresentation_setUser, hsetp]
      rfl
    · rw [huset]
      rfl
  · simp only [if_neg hcr]
    have hz : (db.slides.filter (fun s => s.presentation_id == pid)).length * rate = 0 :=
      Nat.eq_zero_of_not_pos hcr
    refine ⟨trivial, ?_, rfl, ?_⟩
    · rw [hsetp]
      rfl
    · rw [hu1]
      simp [hz]

/-- C3 witness: the spec's mid-flight example — five slides, two of them with
persisted images, rate 25: the refund is 5 x 25 = 125, images remain. -/
theorem cancel_refunds_slide_count_times_rate_witness :
    (let db : DB := ⟨[⟨7, 40⟩], [⟨3, 7, PresentationStatus.PENDING_VISUALS, some "chord"⟩],
      [⟨1, 3, 1, "a", none, some "uploads/3/slide_1_x.png", none, none⟩,
       ⟨2, 3, 2, "b", none, some "uploads/3/slide_2_x.png", none, none⟩,
       ⟨3, 3, 3, "c", none, none, none, none⟩,
       ⟨4, 3, 4, "d", none, none, none, none⟩,
       ⟨5, 3, 5, "e", none, none, none, none⟩]⟩
     (cancel_presentation db 3 7 25).2 = CancelOutcome.cancelled ∧
     ((cancel_presentation db 3 7 25).1.getPresentation 3).map Presentation.status
       = some PresentationStatus.GENERATION_FAILED ∧
     (cancel_presentation db 3 7 25).1.slides = db.slides ∧
     ((cancel_presentation db 3 7 25).1.getUser 7).map User.credits_remaining
       = some (40 + (((db.slides.filter (fun s => s.presentation_id == 3)).length * 25 : Nat) : Int))) :=
  cancel_refunds_slide_count_times_rate
    ⟨[⟨7, 40⟩], [⟨3, 7, PresentationStatus.PENDING_VISUALS, some "chord"⟩],
      [⟨1, 3, 1, "a", none, some "uploads/3/slide_1_x.png", none, none⟩,
       ⟨2, 3, 2, "b", none, some "uploads/3/slide_2_x.png", none, none⟩,
       ⟨3, 3, 3, "c", none, none, none, none⟩,
       ⟨4, 3, 4, "d", none, none, none, none⟩,
       ⟨5, 3, 5, "e", none, none, none, none⟩]⟩ 3 7 25
    (p := ⟨3, 7, PresentationStatus.PENDING_VISUALS, some "chord"⟩) (u := ⟨7, 40⟩)
    rfl rfl rfl rfl rfl

/-- C4: a submission whose user balance is below `slide_count * rate` is
rejected with the balance unchanged and zero job units spawned, before any
debit; and no debit (`max(0, balance - amount)`) ever leaves the balance
below zero. -/
theorem insufficient_credits_rejected (balance : Int) (slide_count rate : Nat)
    (h : balance < ((slide_count * rate : Nat) : Int)) :
    create_presentation_submit balance slide_count rate
        = (CreateOutcome.insufficientCredits, balance, 0) ∧
    ∀ b a : Int, 0 ≤ deduct_credits b a := by
  refine ⟨?_, fun b a => le_max_left 0 (b - a)⟩
  simp only [create_presentation_submit, if_pos h]

/-- C4 witness: the spec's example — a user with 10 credits submitting a batch
that requires 25 credits is rejected and keeps the 10 credits. -/
theorem insufficient_credits_rejected_witness :
    ((10 : Int) < ((1 * 25 : Nat) : Int)) ∧
    create_presentation_submit 10 1 25 = (CreateOutcome.insufficientCredits, 10, 0) :=
  ⟨by decide, (insufficient_credits_rejected 10 1 25 (by decide)).1⟩

/-- C5 counterexample: a slide whose image reference is non-null but empty
(`image_url = ""`).  The claim (keyed on "non-null") promises a short-circuit
with no generator call, but the source guard is Python truthiness
(`if slide.image_url:`), so the run falls through, calls the generator once
and here returns false. -/
theorem job_unit_nonnull_image_counterexample :
    (let db : DB := ⟨[], [⟨1, 1, PresentationStatus.PENDING_VISUALS, none⟩],
       [⟨1, 1, 1, "t", none, some "", none, none⟩]⟩
     let run := generate_single_slide_visual_task db 1 1 none none 1 "paragraph" 5
       "Inter" "style" (fun _ => none) 0 GenOutcome.noImage
     (db.getSlide 1).map Slide.image_url = some (some "") ∧
     run.gen_calls = 1 ∧ run.returned = some false) :=
  ⟨rfl, rfl, rfl⟩

/-- C5 (amended): for every run of the job unit on a slide whose image
reference is non-null and non-empty (the truthiness the source tests), the
unit returns true, performs no generator call, no retry and leaves the state
untouched; hence a second run on the resulting state does exactly the same. -/
theorem job_unit_idempotent_on_existing_image (db : DB) (slide_id user_id : Nat)
    (topic pname : Option String) (total : Nat) (tstyle : String) (cscore : Int)
    (font sprompt : String) (jsonParse : String → Option PyContent) (lc : Nat)
    (gen : GenOutcome) {s : Slide} {u : String}
    (hs : db.getSlide slide_id = some s)
    (himg : s.image_url = some u) (hne : u ≠ "") :
    generate_single_slide_visual_task db slide_id user_id topic pname total tstyle
        cscore font sprompt jsonParse lc gen = ⟨some true, db, 0, false⟩ ∧
    generate_single_slide_visual_task
        (generate_single_slide_visual_task db slide_id user_id topic pname total tstyle
          cscore font sprompt jsonParse lc gen).db
        slide_id user_id topic pname total tstyle cscore font sprompt jsonParse lc gen
      = ⟨some true, db, 0, false⟩ := by
  have htr : pyTruthy s.image_url = true := by
    rw [himg]
    simp [pyTruthy, hne]
  have h1 : generate_single_slide_visual_task db slide_id user_id topic pname total tstyle
      cscore font sprompt jsonParse lc gen = ⟨some true, db, 0, false⟩ := by
    unfold generate_single_slide_visual_task
    rw [hs]
    simp [htr]
  refine ⟨h1, ?_⟩
  rw [h1]
  exact h1

/-- C5 witness: a slide with a real saved image path short-circuits twice. -/
theorem job_unit_idempotent_on_existing_image_witness :
    (let db : DB := ⟨[], [⟨1, 1, PresentationStatus.PENDING_VISUALS, none⟩],
       [⟨1, 1, 1, "t", none, some "uploads/1/slide_1_ab.png", none, none⟩]⟩
     generate_single_slide_visual_task db 1 1 none none 1 "paragraph" 5 "Inter" "style"
        (fun _ => none) 0 GenOutcome.noImage = ⟨some true, db, 0, false⟩ ∧
     generate_single_slide_visual_task
        (generate_single_slide_visual_task db 1 1 none none 1 "paragraph" 5 "Inter" "style"
          (fun _ => none) 0 GenOutcome.noImage).db
        1 1 none none 1 "paragraph" 5 "Inter" "style" (fun _ => none) 0 GenOutcome.noImage
      = ⟨some true, db, 0, false⟩) :=
  job_unit_idempotent_on_existing_image
    ⟨[], [⟨1, 1, PresentationStatus.PENDING_VISUALS, none⟩],
      [⟨1, 1, 1, "t", none, some "uploads/1/slide_1_ab.png", none, none⟩]⟩
    1 1 none none 1 "paragraph" 5 "Inter" "style" (fun _ => none) 0 GenOutcome.noImage
    (s := ⟨1, 1, 1, "t", none, some "uploads/1/slide_1_ab.png", none, none⟩)
    (u := "uploads/1/slide_1_ab.png") rfl rfl (by decide)

/-- C6 counterexample: the idempotent short-circuit runs before the
terminal-failed check, so a slide that already has an image returns true even
though the owning presentation is GENERATION_FAILED — the claim demands false
for every run on a failed presentation. -/
theorem job_unit_failed_presentation_counterexample :
    (let db : DB := ⟨[], [⟨1, 1, PresentationStatus.GENERATION_FAILED, none⟩],
       [⟨1, 1, 1, "t", none, some "uploads/1/slide_1_cd.png", none, none⟩]⟩
     let run := generate_single_slide_visual_task db 1 1 none none 1 "paragraph" 5
       "Inter" "style" (fun _ => none) 0 GenOutcome.noImage
     (db.getPresentation 1).map Presentation.status
        = some PresentationStatus.GENERATION_FAILED ∧
     run.returned = some true) :=
  ⟨rfl, rfl⟩

/-- C6 (amended): for every run where the owning presentation is already
GENERATION_FAILED and the slide's image reference is not yet set (not
truthy), the unit skips: it returns false with no retry, no generator call
and no mutation of slide or presentation. -/
theorem job_unit_skips_on_failed_presentation (db : DB) (slide_id user_id : Nat)
    (topic pname : Option String) (total : Nat) (tstyle : String) (cscore : Int)
    (font sprompt : String) (jsonParse : String → Option PyContent) (lc : Nat)
    (gen : GenOutcome) {s : Slide} {p : Presentation}
    (hs : db.getSlide slide_id = some s)
    (himg : pyTruthy s.image_url = false)
    (hp : db.getPresentation s.presentation_id = some p)
    (hf : p.status = PresentationStatus.GENERATION_FAILED) :
    generate_single_slide_visual_task db slide_id user_id topic pname total tstyle
        cscore font sprompt jsonParse lc gen = ⟨some false, db, 0, false⟩ := by
  unfold generate_single_slide_visual_task
  rw [hs]
  simp [himg, hp, hf]

/-- C6 witness: a failed presentation with an image-less slide is skipped. -/
theorem job_unit_skips_on_failed_presentation_witness :
    (let db : DB := ⟨[], [⟨1, 1, PresentationStatus.GENERATION_FAILED, none⟩],
       [⟨1, 1, 1, "t", none, none, none, none⟩]⟩
     generate_single_slide_visual_task db 1 1 none none 1 "paragraph" 5 "Inter" "style"
        (fun _ => none) 0 GenOutcome.noImage = ⟨some false, db, 0, false⟩) :=
  job_unit_skips_on_failed_presentation
    ⟨[], [⟨1, 1, PresentationStatus.GENERATION_FAILED, none⟩],
      [⟨1, 1, 1, "t", none, none, none, none⟩]⟩
    1 1 none none 1 "paragraph" 5 "Inter" "style" (fun _ => none) 0 GenOutcome.noImage
    (s := ⟨1, 1, 1, "t", none, none, none, none⟩)
    (p := ⟨1, 1, PresentationStatus.GENERATION_FAILED, none⟩) rfl rfl rfl rfl

/-- C10 counterexample: a non-null but empty image reference (`""`) does not
trigger the short-circuit — with the owning presentation missing the run
returns false, not the true the claim promises for every non-null image. -/
theorem job_unit_shortcircuit_counterexample :
    (let db : DB := ⟨[], [], [⟨1, 1, 1, "t", none, some "", none, none⟩]⟩
     let run := generate_single_slide_visual_task db 1 1 none none 1 "paragraph" 5
       "Inter" "style" (fun _ => none) 0 GenOutcome.noImage
     (db.getSlide 1).map Slide.image_url = some (some "") ∧
     db.getPresentation 1 = none ∧
     run.returned = some false) :=
  ⟨rfl, rfl, rfl⟩

/-- C10 (amended): the idempotent short-circuit is evaluated before the
presentation is fetched, so a slide with a non-null, non-empty image
reference returns true even when the owning presentation is missing or
already GENERATION_FAILED. -/
theorem job_unit_shortcircuit_before_presentation (db : DB) (slide_id user_id : Nat)
    (topic pname : Option String) (total : Nat) (tstyle : String) (cscore : Int)
    (font sprompt : String) (jsonParse : String → Option PyContent) (lc : Nat)
    (gen : GenOutcome) {s : Slide} {u : String}
    (hs : db.getSlide slide_id = some s)
    (himg : s.image_url = some u) (hne : u ≠ "")
    (_hpres : db.getPresentation s.presentation_id = none ∨
      ∃ p, db.getPresentation s.presentation_id = some p ∧
        p.status = PresentationStatus.GENERATION_FAILED) :
    (generate_single_slide_visual_task db slide_id user_id topic pname total tstyle
        cscore font sprompt jsonParse lc gen).returned = some true ∧
    (generate_single_slide_visual_task db slide_id user_id topic pname total tstyle
        cscore font sprompt jsonParse lc gen).gen_calls = 0 ∧
    (generate_single_slide_visual_task db slide_id user_id topic pname total tstyle
        cscore font sprompt jsonParse lc gen).db = db := by
  have htr : pyTruthy s.image_url = true := by
    rw [himg]
    simp [pyTruthy, hne]
  have h1 : generate_single_slide_visual_task db slide_id user_id topic pname total tstyle
      cscore font sprompt jsonParse lc gen = ⟨some true, db, 0, false⟩ := by
    unfold generate_single_slide_visual_task
    rw [hs]
    simp [htr]
  rw [h1]
  exact ⟨rfl, rfl, rfl⟩

/-- C10 witness: slide with a saved image, presentation row absent. -/
theorem job_unit_shortcircuit_before_presentation_witness :
    ((generate_single_slide_visual_task ⟨[], [], [⟨1, 1, 1, "t", none, some "uploads/1/slide_1_ef.png", none, none⟩]⟩
        1 1 none none 1 "paragraph" 5 "Inter" "style" (fun _ => none) 0
        GenOutcome.noImage).returned = some true ∧
     (generate_single_slide_visual_task ⟨[], [], [⟨1, 1, 1, "t", none, some "uploads/1/slide_1_ef.png", none, none⟩]⟩
        1 1 none none 1 "paragraph" 5 "Inter" "style" (fun _ => none) 0
        GenOutcome.noImage).gen_calls = 0 ∧
     (generate_single_slide_visual_task ⟨[], [], [⟨1, 1, 1, "t", none, some "uploads/1/slide_1_ef.png", none, none⟩]⟩
        1 1 none none 1 "paragraph" 5 "Inter" "style" (fun _ => none) 0
        GenOutcome.noImage).db
       = ⟨[], [], [⟨1, 1, 1, "t", none, some "uploads/1/slide_1_ef.png", none, none⟩]⟩) :=
  job_unit_shortcircuit_before_presentation
    ⟨[], [], [⟨1, 1, 1, "t", none, some "uploads/1/slide_1_ef.png", none, none⟩]⟩
    1 1 none none 1 "paragraph" 5 "Inter" "style" (fun _ => none) 0 GenOutcome.noImage
    (s := ⟨1, 1, 1, "t", none, some "uploads/1/slide_1_ef.png", none, none⟩)
    (u := "uploads/1/slide_1_ef.png") rfl rfl (by decide) (Or.inl rfl)

theorem pySlice_length_le (s : String) (n : Nat) : (pySlice s n).length ≤ n := by
  show (s.data.take n).length ≤ n
  rw [List.length_take]
  exact min_le_left _ _

/-- C7: for every input, the prompt builder returns at most 3950 characters,
and the result is exactly the stripped assembled instruction text hard-cut at
3950 characters — a plain slice, no word-boundary trimming. -/
theorem build_image_prompt_hard_cut (slide_title : String) (slide_content : PyContent)
    (style_description text_style : String) (slide_number total_slides : Nat)
    (creativity_score : Int) (presentation_topic : Option String)
    (font_choice : String) (presenter_name : Option String) (layout_choice : Nat) :
    (build_image_prompt slide_title slide_content style_description text_style slide_number
        total_slides creativity_score presentation_topic font_choice presenter_name
        layout_choice).length ≤ 3950 ∧
    build_image_prompt slide_title slide_content style_description text_style slide_number
        total_slides creativity_score presentation_topic font_choice presenter_name
        layout_choice
      = pySlice (image_prompt_text slide_title slide_content style_description text_style
          slide_number total_slides creativity_score presentation_topic font_choice
          presenter_name layout_choice).trim 3950 :=
  ⟨pySlice_length_le _ _, rfl⟩

theorem getD_mem_of_lt {α : Type} (l : List α) (n : Nat) (d : α) (h : n < l.length) :
    l.getD n d ∈ l := by
  rw [List.getD_eq_getElem l d h]
  exact List.getElem_mem h

/-- C8: the layout candidate pools nest (low ⊆ medium ⊆ high); every
creativity score in 1..3 selects a layout from the low pool whatever the
random draw; every score in 8..10 selects from the high pool
(low ∪ medium ∪ high); and at score 9 every candidate of the full high pool
is reachable by some draw. -/
theorem layout_tiering (c : Int) (idx : Nat) :
    (layouts_low ⊆ layouts_medium ∧ layouts_medium ⊆ layouts_high) ∧
    (1 ≤ c → c ≤ 3 → chooseContentLayout c idx ∈ layouts_low) ∧
    (8 ≤ c → c ≤ 10 → chooseContentLayout c idx ∈ layouts_high) ∧
    (∀ l ∈ layouts_high, ∃ j, chooseContentLayout 9 j = l) := by
  refine ⟨⟨?_, ?_⟩, ?_, ?_, ?_⟩
  · unfold layouts_medium
    exact List.subset_append_left _ _
  · unfold layouts_high
    exact List.subset_append_left _ _
  · intro h1 h3
    unfold chooseContentLayout
    rw [if_pos ⟨h1, h3⟩]
    unfold pyRandomChoice
    exact getD_mem_of_lt _ _ _ (Nat.mod_lt _ (by decide))
  · intro h8 h10
    unfold chooseContentLayout
    rw [if_neg (by omega : ¬(1 ≤ c ∧ c ≤ 3)), if_neg (by omega : ¬(4 ≤ c ∧ c ≤ 7)),
      if_pos ⟨h8, h10⟩]
    unfold pyRandomChoice
    exact getD_mem_of_lt _ _ _ (Nat.mod_lt _ (by decide))
  · intro l hl
    obtain ⟨i, hi, hil⟩ := List.getElem_of_mem hl
    refine ⟨i, ?_⟩
    have h9 : chooseContentLayout 9 i = pyRandomChoice layouts_high i := by
      unfold chooseContentLayout
      rw [if_neg (by omega : ¬((1:Int) ≤ 9 ∧ (9:Int) ≤ 3)),
        if_neg (by omega : ¬((4:Int) ≤ 9 ∧ (9:Int) ≤ 7)),
        if_pos (⟨by omega, by omega⟩ : (8:Int) ≤ 9 ∧ (9:Int) ≤ 10)]
    rw [h9]
    unfold pyRandomChoice
    rw [Nat.mod_eq_of_lt hi, List.getD_eq_getElem _ _ hi]
    exact hil

/-- C8 witness: score 2 draws from the low pool; score 9 draws from the high
pool. -/
theorem layout_tiering_witness :
    chooseContentLayout 2 0 ∈ layouts_low ∧ chooseContentLayout 9 3 ∈ layouts_high :=
  ⟨(layout_tiering 2 0).2.1 (by omega) (by omega),
   (layout_tiering 9 3).2.2.1 (by omega) (by omega)⟩

/-- C9: whenever the regenerate endpoint's image generation fails (the helper
returns no image, or any exception is raised), the already-applied credit
deduction and the slide's title/text edits are rolled back: the committed
state returned is exactly the pre-call state — in particular the user's
balance and the slide row — and an error result (never `regenerated`) is
returned. -/
theorem regen_error_branch_atomic (db : DB) (slide_id user_id credits_needed : Nat)
    (request_data : Option (String × String))
    (new_text_stored style_used prompt_used : String) (gen : GenOutcome)
    (hgen : gen = GenOutcome.noImage ∨ gen = GenOutcome.raised) :
    (regenerate_slide_image_api db slide_id user_id credits_needed request_data
        new_text_stored style_used prompt_used gen).1 = db ∧
    (regenerate_slide_image_api db slide_id user_id credits_needed request_data
        new_text_stored style_used prompt_used gen).1.getUser user_id
      = db.getUser user_id ∧
    (regenerate_slide_image_api db slide_id user_id credits_needed request_data
        new_text_stored style_used prompt_used gen).1.getSlide slide_id
      = db.getSlide slide_id ∧
    ∀ path, (regenerate_slide_image_api db slide_id user_id credits_needed request_data
        new_text_stored style_used prompt_used gen).2
      ≠ RegenOutcome.regenerated path := by
  have h1 : (regenerate_slide_image_api db slide_id user_id credits_needed request_data
      new_text_stored style_used prompt_used gen).1 = db := by
    obtain h | h := hgen <;> subst h <;>
      unfold regenerate_slide_image_api <;> (repeat' split) <;> simp_all
  have h2 : ∀ path, (regenerate_slide_image_api db slide_id user_id credits_needed
      request_data new_text_stored style_used prompt_used gen).2
      ≠ RegenOutcome.regenerated path := by
    intro path
    obtain h | h := hgen <;> subst h <;>
      unfold regenerate_slide_image_api <;> (repeat' split) <;> simp_all
  exact ⟨h1, by rw [h1], by rw [h1], h2⟩

/-- C9 witness: a concrete regenerate call whose generator returns no image
leaves the database exactly as it was and reports an error. -/
theorem regen_error_branch_atomic_witness :
    (let db : DB := ⟨[⟨1, 100⟩], [⟨1, 1, PresentationStatus.VISUALS_COMPLETE, none⟩],
       [⟨1, 1, 1, "old title", some "old text", some "uploads/1/x.png", none, none⟩]⟩
     (regenerate_slide_image_api db 1 1 25 (some ("new title", "new text")) "new text"
        "style" "prompt" GenOutcome.noImage).1 = db ∧
     (regenerate_slide_image_api db 1 1 25 (some ("new title", "new text")) "new text"
        "style" "prompt" GenOutcome.noImage).1.getUser 1 = db.getUser 1 ∧
     (regenerate_slide_image_api db 1 1 25 (some ("new title", "new text")) "new text"
        "style" "prompt" GenOutcome.noImage).1.getSlide 1 = db.getSlide 1 ∧
     ∀ path, (regenerate_slide_image_api db 1 1 25 (some ("new title", "new text"))
        "new text" "style" "prompt" GenOutcome.noImage).2
       ≠ RegenOutcome.regenerated path) :=
  regen_error_branch_atomic
    ⟨[⟨1, 100⟩], [⟨1, 1, PresentationStatus.VISUALS_COMPLETE, none⟩],
      [⟨1, 1, 1, "old title", some "old text", some "uploads/1/x.png", none, none⟩]⟩
    1 1 25 (some ("new title", "new text")) "new text" "style" "prompt"
    GenOutcome.noImage (Or.inl rfl)

end Slidea
